import Mathlib

/-!
Verification development for the housecall-patch-sync repository: a shallow
embedding in Lean 4 of the merge-decision, deduplication, transformation and
orchestration logic (src/lib/merge.js, src/lib/dedup.js, src/lib/transform.js,
src/lib/sync.js, src/api/sync.js), together with theorems settling the
specification's claims about it.

Embedding conventions:
* A JavaScript string-typed field that may be `undefined`/`null` is embedded as
  `Option String`; `none` is absent, `some s` a string value (possibly `""`).
  JS truthiness of such a value is `jsTruthy`.
* A JS `updated_at` date value is embedded as `Option (Option Int)`:
  `none` for an absent or empty (falsy) value, `some none` for a non-empty
  string that parses to an Invalid Date, and `some (some t)` for a string
  parsing to epoch time `t`.  JS `>` on dates compares the epoch numbers and is
  `false` whenever either side is Invalid (NaN comparison).
* The completeness score accumulates in 0.5-point steps; it is embedded in
  half-point units as a `Nat` (exact, since the JS float sums of halves are
  exact), which preserves every `>` comparison.
* Network effects (job-history fetch, contact lookup, create, update) are
  passed in as explicit outcome values, and the orchestrator additionally
  returns the list of downstream calls it performed.
-/

namespace HPSync

/-- JS truthiness of a possibly-absent string value: `undefined`, `null` and
`""` are falsy, every other string is truthy. -/
def jsTruthy : Option String → Bool
  | none => false
  | some s => s != ""

/-- Embeds the JS idiom `a || dflt` for a string-typed `a`. -/
def jsOrS (a : Option String) (dflt : String) : String :=
  match a with
  | some s => if s != "" then s else dflt
  | none => dflt

/-- Embeds the JS idiom `a || null` for a string-typed `a`. -/
def jsOrNull (a : Option String) : Option String :=
  match a with
  | some s => if s != "" then some s else none
  | none => none

/-- JS `String.prototype.trim()`: the string with leading and trailing
whitespace removed (written over the character list so it evaluates by
kernel reduction). -/
def jsTrim (s : String) : String :=
  ((s.toList.dropWhile Char.isWhitespace).reverse.dropWhile
      Char.isWhitespace).reverse.asString

/-- Embeds `contact.f && contact.f.trim()` used as a boolean: truthy iff the
field is a non-empty string whose trim is non-empty. -/
def truthyTrim : Option String → Bool
  | none => false
  | some s => s != "" && jsTrim s != ""

/-- One entry of a Housecall Pro customer's `addresses` array. -/
structure Address where
  type : Option String := none
  street : Option String := none
  street_line_2 : Option String := none
  city : Option String := none
  state : Option String := none
  zip : Option String := none
deriving DecidableEq, Repr

/-- A Housecall Pro customer record (source schema).  `updated_at` uses the
date encoding described in the file header. -/
structure HCCustomer where
  id : Option String := none
  first_name : Option String := none
  last_name : Option String := none
  mobile_number : Option String := none
  home_number : Option String := none
  email : Option String := none
  addresses : Option (List Address) := none
  tags : Option (List String) := none
  updated_at : Option (Option Int) := none
deriving DecidableEq, Repr

/-- A Patch Retention (downstream) contact record. -/
structure PatchContact where
  _id : String := ""
  first_name : Option String := none
  last_name : Option String := none
  phone : Option String := none
  email : Option String := none
  city : Option String := none
  street : Option String := none
  address : Option String := none
  state : Option String := none
  zip : Option String := none
  tags : Option (List String) := none
  channel : Option String := none
  updated_at : Option (Option Int) := none
deriving DecidableEq, Repr

/-- The duck-typed view `calculateCompleteness` takes of its argument: exactly
the properties it reads.  Objects of any shape are scored through this view;
a property the object does not have reads as `none` (JS `undefined`). -/
structure ContactLike where
  first_name : Option String := none
  last_name : Option String := none
  phone : Option String := none
  email : Option String := none
  city : Option String := none
  street : Option String := none
  address : Option String := none
  state : Option String := none
  zip : Option String := none
  tags : Option (List String) := none
deriving DecidableEq, Repr

/-- Property reads `calculateCompleteness` performs on a Housecall Pro
customer object: it has no `phone`, `city`, `street`, `address`, `state` or
`zip` properties, so those reads yield `undefined`. -/
def HCCustomer.asContact (c : HCCustomer) : ContactLike :=
  { first_name := c.first_name
    last_name := c.last_name
    email := c.email
    tags := c.tags }

/-- Property reads `calculateCompleteness` performs on a Patch contact. -/
def PatchContact.asContact (p : PatchContact) : ContactLike :=
  { first_name := p.first_name
    last_name := p.last_name
    phone := p.phone
    email := p.email
    city := p.city
    street := p.street
    address := p.address
    state := p.state
    zip := p.zip
    tags := p.tags }

/-- `calculateCompleteness` from src/lib/merge.js, in half-point units
(1 JS point = 2 here, 0.5 JS point = 1 here). -/
def calculateCompleteness (contact : ContactLike) : Nat :=
  (if truthyTrim contact.first_name then 2 else 0) +
  (if truthyTrim contact.last_name then 2 else 0) +
  (if truthyTrim contact.phone then 2 else 0) +
  (if truthyTrim contact.email then 2 else 0) +
  (if truthyTrim contact.city then 2 else 0) +
  (if jsTruthy contact.street || jsTruthy contact.address then 1 else 0) +
  (if jsTruthy contact.state then 1 else 0) +
  (if jsTruthy contact.zip then 1 else 0) +
  (if (match contact.tags with
       | some l => decide (l.length > 0)
       | none => false) then 1 else 0)

/-- `isNewerData` from src/lib/merge.js: `false` when either `updated_at` is
falsy; otherwise the JS `>` comparison of the two parsed dates, which is
`false` when either parse yields an Invalid Date. -/
def isNewerData (hcCustomer : HCCustomer) (patchContact : PatchContact) : Bool :=
  match hcCustomer.updated_at, patchContact.updated_at with
  | none, _ => false
  | _, none => false
  | some hcDate, some patchDate =>
    match hcDate, patchDate with
    | some a, some b => a > b
    | _, _ => false

/-- `wasManuallyEdited` from src/lib/merge.js:
`patchContact.channel && patchContact.channel !== 'API'` as a boolean. -/
def wasManuallyEdited (patchContact : PatchContact) : Bool :=
  jsTruthy patchContact.channel && patchContact.channel != some "API"

/-- `shouldUpdate` from src/lib/merge.js: rule 1 manual-edit protection,
rule 2 recency, rule 3 completeness, rule 4 default skip. -/
def shouldUpdate (hcCustomer : HCCustomer) (patchContact : PatchContact) : Bool :=
  if wasManuallyEdited patchContact then
    false
  else if isNewerData hcCustomer patchContact then
    true
  else
    calculateCompleteness hcCustomer.asContact >
      calculateCompleteness patchContact.asContact

/-- Result of `decideMergeStrategy`: an action string and the matched
contact. -/
structure MergeDecision where
  action : String
  contact : Option PatchContact
deriving DecidableEq, Repr

/-- `decideMergeStrategy` from src/lib/merge.js. -/
def decideMergeStrategy (hcCustomer : HCCustomer) (existingContact : Option PatchContact) :
    MergeDecision :=
  match existingContact with
  | none => { action := "create", contact := none }
  | some existing =>
    if shouldUpdate hcCustomer existing then
      { action := "update", contact := some existing }
    else
      { action := "skip", contact := some existing }

/-- `normalizePhone` from src/lib/dedup.js: falsy input yields `""`; otherwise
strip every non-digit character (`replace(/\D/g, '')`), then drop the leading
digit when the result is exactly 11 digits starting with `'1'`. -/
def normalizePhone (phone : Option String) : String :=
  match phone with
  | none => ""
  | some s =>
    if s = "" then ""
    else
      let normalized := s.toList.filter Char.isDigit
      let normalized :=
        if normalized.length = 11 ∧ normalized.head? = some '1' then
          normalized.drop 1
        else normalized
      normalized.asString

/-- `extractCity`'s service-address selection, shared by the four extractors
in src/lib/transform.js:
`addresses.find(addr => addr.type === 'service') || addresses[0]`,
guarded by `!addresses || addresses.length === 0`. -/
def serviceAddressOf (addresses : Option (List Address)) : Option Address :=
  match addresses with
  | none => none
  | some [] => none
  | some l =>
    match l.find? (fun addr => addr.type = some "service") with
    | some a => some a
    | none => l.head?

/-- `extractCity` from src/lib/transform.js. -/
def extractCity (addresses : Option (List Address)) : Option String :=
  match serviceAddressOf addresses with
  | none => none
  | some serviceAddress => jsOrNull serviceAddress.city

/-- `extractStreet` from src/lib/transform.js: primary street line, plus the
second line when present, trimmed; empty result becomes null. -/
def extractStreet (addresses : Option (List Address)) : Option String :=
  match serviceAddressOf addresses with
  | none => none
  | some serviceAddress =>
    let street := jsOrS serviceAddress.street ""
    let street :=
      if jsTruthy serviceAddress.street_line_2 then
        street ++ " " ++ (serviceAddress.street_line_2.getD "")
      else street
    jsOrNull (some (jsTrim street))

/-- `extractState` from src/lib/transform.js. -/
def extractState (addresses : Option (List Address)) : Option String :=
  match serviceAddressOf addresses with
  | none => none
  | some serviceAddress => jsOrNull serviceAddress.state

/-- `extractZip` from src/lib/transform.js. -/
def extractZip (addresses : Option (List Address)) : Option String :=
  match serviceAddressOf addresses with
  | none => none
  | some serviceAddress => jsOrNull serviceAddress.zip

/-- First-occurrence deduplication, the meaning of `[...new Set(tags)]` in JS:
iteration order of a `Set` is insertion order of first occurrence. -/
def dedupFirst (l : List String) : List String :=
  l.foldl (fun acc t => if t ∈ acc then acc else acc ++ [t]) []

/-- `buildTags` from src/lib/transform.js: source marker, sync-mode marker,
optional state marker, optional service-history marker, the customer's own
tags, then `[...new Set(tags)]`. -/
def buildTags (customer : HCCustomer) (lastServiceDate : Option String)
    (isInitialSync : Bool) : List String :=
  let tags := ["Source:housecallpro"]
  let tags := tags ++ [if isInitialSync then "Sync:initial" else "Sync:realtime"]
  let tags := tags ++
    (match customer.addresses with
     | some l =>
       if l.length > 0 then
         match extractState customer.addresses with
         | some state => ["State:" ++ state]
         | none => []
       else []
     | none => [])
  let tags := tags ++ (if jsTruthy lastServiceDate then ["Has-Service-History"] else [])
  let tags := tags ++
    (match customer.tags with
     | some ts => ts
     | none => [])
  dedupFirst tags

/-- The transformed downstream payload: a record field set to `none` stands
for a key that is absent from the JS object (never added, or deleted by the
empty-field cleanup loop). -/
structure PatchPayload where
  first_name : Option String := none
  last_name : Option String := none
  phone : Option String := none
  email : Option String := none
  city : Option String := none
  address : Option String := none
  tags : List String := []
deriving DecidableEq, Repr

/-- The `Remove any empty/null fields` loop of src/lib/transform.js applied to
one string-valued key: `null`, `undefined` and `''` values are deleted. -/
def cleanField (v : Option String) : Option String :=
  match v with
  | some s => if s = "" then none else some s
  | none => none

/-- Models `new Date(lastServiceDate).toISOString().split('T')[0]` for the
ISO-8601 timestamps the job-history API returns: the part before `'T'`. -/
def formatServiceDate (lastServiceDate : String) : String :=
  (lastServiceDate.toList.takeWhile (fun c => c ≠ 'T')).asString

/-- The `Remove any empty/null fields` loop of src/lib/transform.js, applied
to every string-valued key of the payload (the `tags` array compares unequal
to `null`/`undefined`/`''` and is never deleted). -/
def cleanupPayload (patchContact : PatchPayload) : PatchPayload :=
  { patchContact with
      first_name := cleanField patchContact.first_name
      last_name := cleanField patchContact.last_name
      phone := cleanField patchContact.phone
      email := cleanField patchContact.email
      city := cleanField patchContact.city
      address := cleanField patchContact.address }

/-- Options of `transformCustomer` (src/lib/transform.js). -/
structure TransformOptions where
  isInitialSync : Bool := false
  includeLastServiceDate : Bool := true
deriving DecidableEq, Repr

/-- `transformCustomer` from src/lib/transform.js.  The job-history
collaborator `getLastServiceDate(customer.id)` is passed in as its outcome
`lastServiceOracle` (an exception, or a possibly-null date string); it is
consulted only when `includeLastServiceDate && customer.id` holds.  A thrown
error is re-thrown wrapped in the `Failed to transform customer:` message.
The body builds the base object, adds `address` when the street is non-empty,
pushes a `ZIP:` tag and (when a last-service date was resolved) a
`LastService:` tag, and runs the empty-field cleanup. -/
def transformCustomer (customer : HCCustomer) (options : TransformOptions)
    (lastServiceOracle : Except String (Option String)) :
    Except String PatchPayload :=
  match
    (if options.includeLastServiceDate && jsTruthy customer.id then lastServiceOracle
     else Except.ok none) with
  | Except.error msg => Except.error ("Failed to transform customer: " ++ msg)
  | Except.ok lastServiceDate =>
    let patchContact : PatchPayload :=
      { first_name := some (jsOrS customer.first_name "")
        last_name := some (jsOrS customer.last_name "")
        phone := some (jsOrS customer.mobile_number (jsOrS customer.home_number ""))
        email := some (jsOrS customer.email "")
        city := extractCity customer.addresses
        tags := buildTags customer lastServiceDate options.isInitialSync }
    let street := extractStreet customer.addresses
    let patchContact :=
      if jsTruthy street then { patchContact with address := street } else patchContact
    let zip := extractZip customer.addresses
    let patchContact :=
      if jsTruthy zip then
        { patchContact with tags := patchContact.tags ++ ["ZIP:" ++ zip.getD ""] }
      else patchContact
    let patchContact :=
      if jsTruthy lastServiceDate then
        { patchContact with
            tags := patchContact.tags ++
              ["LastService:" ++ formatServiceDate (lastServiceDate.getD "")] }
      else patchContact
    Except.ok (cleanupPayload patchContact)

/-- `transformCustomerSync` from src/lib/transform.js: the same construction
written without any job-history fetch (`buildTags` is called with a `null`
last-service date) and without the `LastService:` push. -/
def transformCustomerSync (customer : HCCustomer) (isInitialSync : Bool := false) :
    PatchPayload :=
  let patchContact : PatchPayload :=
    { first_name := some (jsOrS customer.first_name "")
      last_name := some (jsOrS customer.last_name "")
      phone := some (jsOrS customer.mobile_number (jsOrS customer.home_number ""))
      email := some (jsOrS customer.email "")
      city := extractCity customer.addresses
      tags := buildTags customer none isInitialSync }
  let street := extractStreet customer.addresses
  let patchContact :=
    if jsTruthy street then { patchContact with address := street } else patchContact
  let zip := extractZip customer.addresses
  let patchContact :=
    if jsTruthy zip then
      { patchContact with tags := patchContact.tags ++ ["ZIP:" ++ zip.getD ""] }
    else patchContact
  cleanupPayload patchContact

/-- An axios request failure, as seen by the downstream-write wrappers:
`status` is `error.response?.status` (absent for a network-level failure). -/
structure AxiosError where
  status : Option Nat := none
  message : String := ""
deriving DecidableEq, Repr

/-- One downstream/API call performed by the orchestrator, recorded so that
theorems can speak about which calls a run performs. -/
inductive ApiCall where
  | jobHistory
  | contactLookup (phone : String)
  | createContact (payload : PatchPayload)
  | updateContact (id : String) (payload : PatchPayload)
deriving DecidableEq, Repr

/-- A `SyncResult` as returned by `syncCustomer` in src/lib/sync.js (the
`customer` echo field is omitted; it is the input itself). -/
structure SyncResult where
  action : String
  contact : Option PatchContact := none
  reason : Option String := none
  error : Option String := none
deriving DecidableEq, Repr

/-- Options of `syncCustomer` (src/lib/sync.js).  The `phoneLookup` map is
subsumed by the lookup outcome in `SyncEffects`. -/
structure SyncOptions where
  isInitialSync : Bool := false
  includeLastServiceDate : Bool := false
deriving DecidableEq, Repr

/-- Outcomes of the network collaborators of one `syncCustomer` run:
the job-history fetch inside `transformCustomer`, the `findContactByPhone`
lookup (which never throws: src/lib/dedup.js returns `null` on any internal
failure), and the `createContact` / `updateContact` writes of
src/lib/patchApi.js, which re-throw an axios failure as a plain `Error`
carrying the `Failed to ... contact:` message. -/
structure SyncEffects where
  lastService : Except String (Option String) := Except.ok none
  lookup : Option PatchContact := none
  createResult : Except AxiosError PatchContact := Except.error {}
  updateResult : Except AxiosError PatchContact := Except.error {}
deriving Repr

/-- The transform step of `syncCustomer` (src/lib/sync.js step 1): the async
transformer when `includeLastServiceDate` is set, else the sync variant. -/
def transformStep (customer : HCCustomer) (options : SyncOptions)
    (fx : SyncEffects) : Except String PatchPayload :=
  if options.includeLastServiceDate then
    transformCustomer customer
      { isInitialSync := options.isInitialSync, includeLastServiceDate := true }
      fx.lastService
  else
    Except.ok (transformCustomerSync customer options.isInitialSync)

/-- `syncCustomer` from src/lib/sync.js: transform, skip when the payload has
no phone, look up the existing contact, `decideMergeStrategy`, execute the
decided action; every thrown error is caught and reported as an `error`
result.  Also returns the list of downstream calls performed. -/
def syncCustomer (customer : HCCustomer) (options : SyncOptions)
    (fx : SyncEffects) : SyncResult × List ApiCall :=
  let fetchCalls : List ApiCall :=
    if options.includeLastServiceDate && jsTruthy customer.id then
      [ApiCall.jobHistory]
    else []
  match transformStep customer options fx with
  | Except.error msg => ({ action := "error", error := some msg }, fetchCalls)
  | Except.ok patchData =>
    if ¬ jsTruthy patchData.phone then
      ({ action := "skipped", reason := some "no_phone" }, fetchCalls)
    else
      let phone := patchData.phone.getD ""
      let calls := fetchCalls ++ [ApiCall.contactLookup phone]
      let existingContact := fx.lookup
      let decision := decideMergeStrategy customer existingContact
      if decision.action = "create" then
        match fx.createResult with
        | Except.ok createdContact =>
          ({ action := "created", contact := some createdContact },
           calls ++ [ApiCall.createContact patchData])
        | Except.error e =>
          ({ action := "error",
             error := some ("Failed to create contact: " ++ e.message) },
           calls ++ [ApiCall.createContact patchData])
      else if decision.action = "update" then
        match decision.contact with
        | some existing =>
          (match fx.updateResult with
           | Except.ok updatedContact =>
             ({ action := "updated", contact := some updatedContact },
              calls ++ [ApiCall.updateContact existing._id patchData])
           | Except.error e =>
             ({ action := "error",
                error := some ("Failed to update contact: " ++ e.message) },
              calls ++ [ApiCall.updateContact existing._id patchData]))
        | none =>
          ({ action := "error",
             error := some "Cannot read properties of null" }, calls)
      else if decision.action = "skip" then
        ({ action := "skipped", contact := decision.contact }, calls)
      else
        ({ action := "error",
           error := some ("Unknown action: " ++ decision.action) }, calls)

/-- A `BatchResult` as returned by `syncBatch` in src/lib/sync.js. -/
structure BatchResult where
  created : Nat := 0
  updated : Nat := 0
  skipped : Nat := 0
  errors : Nat := 0
  details : List SyncResult := []
deriving DecidableEq, Repr

/-- The per-record accumulation step of `syncBatch`: push the result and bump
the counter matching its action (no counter for an unknown action). -/
def batchStep (acc : BatchResult) (result : SyncResult) : BatchResult :=
  { created := acc.created + (if result.action = "created" then 1 else 0)
    updated := acc.updated + (if result.action = "updated" then 1 else 0)
    skipped := acc.skipped + (if result.action = "skipped" then 1 else 0)
    errors := acc.errors + (if result.action = "error" then 1 else 0)
    details := acc.details ++ [result] }

/-- `syncBatch` from src/lib/sync.js: sequentially sync every customer with
shared options, accumulating counters and the ordered result list.  The
collaborator outcomes of each record's run are given by `fx`. -/
def syncBatch (customers : List HCCustomer) (options : SyncOptions)
    (fx : HCCustomer → SyncEffects) : BatchResult :=
  customers.foldl
    (fun acc customer => batchStep acc (syncCustomer customer options (fx customer)).1)
    {}

/-- The inline `syncCustomer` of src/api/sync.js (the self-contained webhook
handler): minimal inline transform, skip when no phone, unconditional create
via the downstream API; a rejection with HTTP status 409 or 400 becomes a
non-fatal `skipped`/`duplicate_or_validation` result, any other failure is
re-thrown (`Except.error`).  The credential presence check is assumed to have
passed. -/
def inlineSyncCustomer (customer : HCCustomer)
    (createResult : Except AxiosError PatchContact) : Except String SyncResult :=
  let phone := jsOrS customer.mobile_number (jsOrS customer.home_number "")
  if phone = "" then
    Except.ok { action := "skipped", reason := some "no_phone" }
  else
    match createResult with
    | Except.ok contact =>
      Except.ok { action := "created", contact := some contact }
    | Except.error e =>
      if e.status = some 409 ∨ e.status = some 400 then
        Except.ok { action := "skipped", reason := some "duplicate_or_validation" }
      else
        Except.error e.message

/-- Property reads `calculateCompleteness` would perform on a transformed
payload object (the scoring of the transformed source payload that merge
rule 4 is described as using): the payload carries no `street`, `state` or
`zip` properties. -/
def PatchPayload.asContact (p : PatchPayload) : ContactLike :=
  { first_name := p.first_name
    last_name := p.last_name
    phone := p.phone
    email := p.email
    city := p.city
    address := p.address
    tags := some p.tags }

/- Concrete fixtures for witnesses and counterexamples. -/

/-- A manually-curated downstream contact (channel `Manual`), old and sparse. -/
def manualContact : PatchContact :=
  { _id := "m1", first_name := some "Dana", channel := some "Manual"
    updated_at := some (some 0) }

/-- A rich, much newer source customer. -/
def richCustomer : HCCustomer :=
  { id := some "hc1", first_name := some "Dana", last_name := some "Lee"
    mobile_number := some "8015550100", email := some "dana@example.com"
    addresses := some [{ type := some "service", street := some "1 Main St"
                         city := some "Salt Lake City", state := some "UT"
                         zip := some "84101" }]
    tags := some ["VIP"], updated_at := some (some 1700000000000) }

/-- Source customer for the rule-4 counterexample: its transformed payload is
rich, but the raw customer object carries none of the scored `phone` / `city`
/ `street` / `address` / `state` / `zip` properties and has an empty tag
array. -/
def c2Customer : HCCustomer :=
  { first_name := some "Alice", mobile_number := some "8015550100"
    addresses := some [{ type := some "service", street := some "1 Main St"
                         city := some "Salt Lake City", state := some "UT"
                         zip := some "84101" }]
    tags := some [] }

/-- Existing API-channel contact for the rule-4 counterexample. -/
def c2Existing : PatchContact :=
  { _id := "p1", first_name := some "Alice", last_name := some "Smith"
    phone := some "8015550100", channel := some "API" }

/-- Source customer used for the downstream-rejection scenario. -/
def c3Customer : HCCustomer :=
  { first_name := some "Bob", mobile_number := some "8015550100" }

/-- Collaborator outcomes where no contact matches and the create call is
rejected with HTTP 409 (conflict). -/
def c3Effects : SyncEffects :=
  { lookup := none
    createResult :=
      Except.error { status := some 409, message := "Request failed with status code 409" }
    updateResult := Except.error {} }

/-- Source customer whose own tag list already contains the `ZIP:` marker the
transformer synthesizes for its service-address ZIP. -/
def c4Customer : HCCustomer :=
  { first_name := some "Ann", mobile_number := some "8015550100"
    addresses := some [{ type := some "service", zip := some "84101" }]
    tags := some ["ZIP:84101"] }

/-- Source customer with neither a mobile nor a home number. -/
def phonelessCustomer : HCCustomer :=
  { id := some "hc9", first_name := some "Noa", email := some "noa@example.com" }

/-- Source customer with an id, a service-address ZIP, and no tags of its
own. -/
def c4Witness : HCCustomer :=
  { id := some "w1", first_name := some "Wit", mobile_number := some "8015550111"
    addresses := some [{ type := some "service", zip := some "84102" }]
    tags := some [] }

/-- Source customer whose own tag list already contains the literal
`Has-Service-History` marker. -/
def c9Customer : HCCustomer :=
  { first_name := some "Cy", mobile_number := some "8015550100"
    tags := some ["Has-Service-History"] }

/-- Source customer whose `updated_at` is a non-empty string that parses to
an Invalid Date. -/
def invalidDateCustomer : HCCustomer :=
  { first_name := some "Eve", mobile_number := some "8015550100"
    updated_at := some none }

/- Helper lemmas (not claim theorems). -/

/-- `[...new Set(l)]` produces a duplicate-free list. -/
theorem dedupFirst_nodup (l : List String) : (dedupFirst l).Nodup := by
  suffices h : ∀ acc : List String, acc.Nodup →
      (l.foldl (fun acc t => if t ∈ acc then acc else acc ++ [t]) acc).Nodup by
    exact h [] List.nodup_nil
  induction l with
  | nil => intro acc hacc; exact hacc
  | cons t ts ih =>
    intro acc hacc
    simp only [List.foldl]
    by_cases hmem : t ∈ acc
    · simpa [hmem] using ih acc hacc
    · have : (acc ++ [t]).Nodup := by
        refine List.Nodup.append hacc (List.nodup_singleton t) ?_
        intro a ha hb
        simp only [List.mem_singleton] at hb
        exact hmem (hb ▸ ha)
      simpa [hmem] using ih (acc ++ [t]) this

theorem mem_dedupFirst {l : List String} {t : String} :
    t ∈ dedupFirst l ↔ t ∈ l := by
  suffices h : ∀ acc : List String,
      (t ∈ l.foldl (fun acc t => if t ∈ acc then acc else acc ++ [t]) acc ↔
        t ∈ acc ∨ t ∈ l) by
    simpa [dedupFirst] using h []
  induction l with
  | nil => intro acc; simp
  | cons x xs ih =>
    intro acc
    simp only [List.foldl]
    by_cases hmem : x ∈ acc
    · rw [if_pos hmem, ih acc]
      constructor
      · rintro (h | h)
        · exact Or.inl h
        · exact Or.inr (List.mem_cons_of_mem x h)
      · rintro (h | h)
        · exact Or.inl h
        · rcases List.mem_cons.1 h with rfl | h
          · exact Or.inl hmem
          · exact Or.inr h
    · rw [if_neg hmem, ih (acc ++ [x])]
      simp only [List.mem_append, List.mem_singleton, List.mem_cons]
      tauto

/-- C1: manual-edit protection dominates every other merge rule.  For every
source customer and every existing downstream contact whose `channel` is a
non-empty string different from `"API"`, `decideMergeStrategy` returns the
`skip` action with the existing contact as target, regardless of the
records' `updated_at` timestamps and completeness scores. -/
theorem c1_manual_edit_protection (hcCustomer : HCCustomer)
    (existing : PatchContact) (ch : String) (hch : existing.channel = some ch)
    (hne : ch ≠ "") (hapi : ch ≠ "API") :
    decideMergeStrategy hcCustomer (some existing) =
      { action := "skip", contact := some existing } := by
  have hman : wasManuallyEdited existing = true := by
    simp [wasManuallyEdited, jsTruthy, hch, hne, hapi]
  simp [decideMergeStrategy, shouldUpdate, hman]

/-- Witness for C1: an existing `Manual`-channel contact is skipped even
though the source customer is far newer and far more complete. -/
theorem c1_manual_edit_protection_witness :
    isNewerData richCustomer manualContact = true ∧
    calculateCompleteness richCustomer.asContact >
      calculateCompleteness manualContact.asContact ∧
    decideMergeStrategy richCustomer (some manualContact) =
      { action := "skip", contact := some manualContact } :=
  ⟨by decide, by decide,
    c1_manual_edit_protection richCustomer manualContact "Manual" rfl
      (by decide) (by decide)⟩

/-- C7: the recency rule fires exactly when determinable and strictly newer.
`isNewerData` is `true` iff both `updated_at` values are present and parsable
and the source's timestamp is strictly later; and whenever the contact is not
manually edited and the recency rule does not fire, `shouldUpdate` is decided
by the completeness comparison. -/
theorem c7_recency_rule (hcCustomer : HCCustomer) (patchContact : PatchContact) :
    (isNewerData hcCustomer patchContact = true ↔
      ∃ a b, hcCustomer.updated_at = some (some a) ∧
        patchContact.updated_at = some (some b) ∧ b < a) ∧
    (wasManuallyEdited patchContact = false →
      isNewerData hcCustomer patchContact = false →
      shouldUpdate hcCustomer patchContact =
        decide (calculateCompleteness hcCustomer.asContact >
          calculateCompleteness patchContact.asContact)) := by
  constructor
  · cases hu : hcCustomer.updated_at with
    | none => simp [isNewerData, hu]
    | some hcDate =>
      cases pu : patchContact.updated_at with
      | none => simp [isNewerData, hu, pu]
      | some patchDate =>
        cases hcDate with
        | none => simp [isNewerData, hu, pu]
        | some a =>
          cases patchDate with
          | none => simp [isNewerData, hu, pu]
          | some b => simp [isNewerData, hu, pu, Int.lt_iff_add_one_le]
  · intro hman hnew
    simp [shouldUpdate, hman, hnew]

/-- Witness for C7: an unparsable source timestamp does not fire the recency
rule, and the decision falls through to the completeness comparison. -/
theorem c7_recency_rule_witness :
    isNewerData invalidDateCustomer c2Existing = false ∧
    shouldUpdate invalidDateCustomer c2Existing =
      decide (calculateCompleteness invalidDateCustomer.asContact >
        calculateCompleteness c2Existing.asContact) :=
  ⟨by decide,
    (c7_recency_rule invalidDateCustomer c2Existing).2 (by decide) (by decide)⟩

/-- C8: `normalizePhone` strips every non-digit character and drops the
leading digit exactly when the digits-only result is 11 characters long and
begins with `'1'`; falsy input yields the empty string; and the three
documented examples hold. -/
theorem c8_normalize_phone :
    (∀ s : String,
      normalizePhone (some s) =
        (let d := s.toList.filter Char.isDigit
         if d.length = 11 ∧ d.head? = some '1' then (d.drop 1).asString
         else d.asString)) ∧
    normalizePhone none = "" ∧
    normalizePhone (some "") = "" ∧
    normalizePhone (some "+1 (801) 555-0100") = "8015550100" ∧
    normalizePhone (some "5550100") = "5550100" := by
  refine ⟨?_, rfl, by decide, by decide, by decide⟩
  intro s
  by_cases hs : s = ""
  · subst hs; decide
  · simp only [normalizePhone, if_neg hs]
    by_cases hc : (s.toList.filter Char.isDigit).length = 11 ∧
        (s.toList.filter Char.isDigit).head? = some '1'
    · rw [if_pos hc, if_pos hc]
    · rw [if_neg hc, if_neg hc]

theorem buildTags_nodup (customer : HCCustomer) (lastServiceDate : Option String)
    (isInitialSync : Bool) :
    (buildTags customer lastServiceDate isInitialSync).Nodup := by
  unfold buildTags
  exact dedupFirst_nodup _

theorem state_tag_ne_hsh (st : String) : "State:" ++ st ≠ "Has-Service-History" := by
  intro h
  have hd := congrArg String.data h
  rw [String.data_append] at hd
  simp at hd

theorem zip_tag_ne_hsh (z : String) : "ZIP:" ++ z ≠ "Has-Service-History" := by
  intro h
  have hd := congrArg String.data h
  rw [String.data_append] at hd
  simp at hd

theorem zip_tag_ne_ls_tag (z d : String) : "ZIP:" ++ z ≠ "LastService:" ++ d := by
  intro h
  have hd := congrArg String.data h
  rw [String.data_append, String.data_append] at hd
  simp at hd

theorem ls_tag_ne_source (d : String) : "LastService:" ++ d ≠ "Source:housecallpro" := by
  intro h
  have hd := congrArg String.data h
  rw [String.data_append] at hd
  simp at hd

theorem ls_tag_ne_sync_initial (d : String) : "LastService:" ++ d ≠ "Sync:initial" := by
  intro h
  have hd := congrArg String.data h
  rw [String.data_append] at hd
  simp at hd

theorem ls_tag_ne_sync_realtime (d : String) : "LastService:" ++ d ≠ "Sync:realtime" := by
  intro h
  have hd := congrArg String.data h
  rw [String.data_append] at hd
  simp at hd

theorem ls_tag_ne_state_tag (d st : String) : "LastService:" ++ d ≠ "State:" ++ st := by
  intro h
  have hd := congrArg String.data h
  rw [String.data_append, String.data_append] at hd
  simp at hd

theorem ls_tag_ne_hsh (d : String) : "LastService:" ++ d ≠ "Has-Service-History" := by
  intro h
  have hd := congrArg String.data h
  rw [String.data_append] at hd
  simp at hd

theorem zip_tag_ne_source (z : String) : "ZIP:" ++ z ≠ "Source:housecallpro" := by
  intro h
  have hd := congrArg String.data h
  rw [String.data_append] at hd
  simp at hd

theorem zip_tag_ne_sync_initial (z : String) : "ZIP:" ++ z ≠ "Sync:initial" := by
  intro h
  have hd := congrArg String.data h
  rw [String.data_append] at hd
  simp at hd

theorem zip_tag_ne_sync_realtime (z : String) : "ZIP:" ++ z ≠ "Sync:realtime" := by
  intro h
  have hd := congrArg String.data h
  rw [String.data_append] at hd
  simp at hd

theorem zip_tag_ne_state_tag (z st : String) : "ZIP:" ++ z ≠ "State:" ++ st := by
  intro h
  have hd := congrArg String.data h
  rw [String.data_append, String.data_append] at hd
  simp at hd

/-- Where a tag in the `buildTags` output can come from: one of the
synthesized markers (the service-history marker only when a last-service date
was resolved) or the customer's own tag list. -/
theorem mem_buildTags {customer : HCCustomer} {lastServiceDate : Option String}
    {isInitialSync : Bool} {t : String}
    (ht : t ∈ buildTags customer lastServiceDate isInitialSync) :
    t = "Source:housecallpro" ∨ t = "Sync:initial" ∨ t = "Sync:realtime" ∨
    (∃ st, t = "State:" ++ st) ∨
    (jsTruthy lastServiceDate = true ∧ t = "Has-Service-History") ∨
    t ∈ customer.tags.getD [] := by
  unfold buildTags at ht
  rw [mem_dedupFirst] at ht
  simp only [List.mem_append, List.mem_singleton, List.mem_cons,
    List.not_mem_nil, or_false] at ht
  rcases ht with (((h | h) | h) | h) | h
  · exact Or.inl h
  · split at h
    · exact Or.inr (Or.inl h)
    · exact Or.inr (Or.inr (Or.inl h))
  · repeat' split at h
    all_goals first
      | exact absurd h (List.not_mem_nil t)
      | (simp only [List.mem_singleton] at h
         exact Or.inr (Or.inr (Or.inr (Or.inl ⟨_, h⟩))))
  · split at h
    · rename_i hls
      simp only [List.mem_singleton] at h
      exact Or.inr (Or.inr (Or.inr (Or.inr (Or.inl ⟨hls, h⟩))))
    · exact absurd h (List.not_mem_nil t)
  · split at h
    · rename_i ts hts
      exact Or.inr (Or.inr (Or.inr (Or.inr (Or.inr (by rw [hts]; simpa using h)))))
    · exact absurd h (List.not_mem_nil t)

/-- A `ZIP:` marker can be in the `buildTags` output only through the
customer's own tag list. -/
theorem zip_marker_mem_buildTags {customer : HCCustomer}
    {lastServiceDate : Option String} {isInitialSync : Bool} {z : String}
    (h : ("ZIP:" ++ z) ∈ buildTags customer lastServiceDate isInitialSync) :
    ("ZIP:" ++ z) ∈ customer.tags.getD [] := by
  rcases mem_buildTags h with h' | h' | h' | ⟨st, h'⟩ | ⟨_, h'⟩ | h'
  · exact absurd h' (zip_tag_ne_source z)
  · exact absurd h' (zip_tag_ne_sync_initial z)
  · exact absurd h' (zip_tag_ne_sync_realtime z)
  · exact absurd h' (zip_tag_ne_state_tag z st)
  · exact absurd h' (zip_tag_ne_hsh z)
  · exact h'

/-- A `LastService:` marker can be in the `buildTags` output only through the
customer's own tag list. -/
theorem ls_marker_mem_buildTags {customer : HCCustomer}
    {lastServiceDate : Option String} {isInitialSync : Bool} {d : String}
    (h : ("LastService:" ++ d) ∈ buildTags customer lastServiceDate isInitialSync) :
    ("LastService:" ++ d) ∈ customer.tags.getD [] := by
  rcases mem_buildTags h with h' | h' | h' | ⟨st, h'⟩ | ⟨_, h'⟩ | h'
  · exact absurd h' (ls_tag_ne_source d)
  · exact absurd h' (ls_tag_ne_sync_initial d)
  · exact absurd h' (ls_tag_ne_sync_realtime d)
  · exact absurd h' (ls_tag_ne_state_tag d st)
  · exact absurd h' (ls_tag_ne_hsh d)
  · exact h'

/-- `extractZip` never returns the empty string (the `|| null` coalescing
turns it into a missing value). -/
theorem extractZip_ne_empty {addresses : Option (List Address)} {z : String}
    (hz : extractZip addresses = some z) : z ≠ "" := by
  unfold extractZip jsOrNull at hz
  split at hz
  · exact absurd hz (by simp)
  · split at hz
    · split at hz
      · intro hzz
        simp_all
      · exact absurd hz (by simp)
    · exact absurd hz (by simp)

/-- The tag list of the sync-variant payload: the deduplicated `buildTags`
output with the `ZIP:` marker appended afterwards when a ZIP is present. -/
theorem transformCustomerSync_tags (customer : HCCustomer) (isInitialSync : Bool) :
    (transformCustomerSync customer isInitialSync).tags =
      buildTags customer none isInitialSync ++
        (if jsTruthy (extractZip customer.addresses) then
          ["ZIP:" ++ (extractZip customer.addresses).getD ""] else []) := by
  simp only [transformCustomerSync, cleanupPayload]
  by_cases hst : jsTruthy (extractStreet customer.addresses) <;>
    by_cases hz : jsTruthy (extractZip customer.addresses) <;>
      simp [hst, hz]

/-- C2 counterexample: the completeness comparison of merge rule 4 is NOT
performed on the transformed payload.  Here the existing contact is not
manually edited and recency is undeterminable, the transformed payload of
`c2Customer` scores strictly higher than `c2Existing`, yet the decision (and
the whole `syncCustomer` run) is `skip`, because the code scores the raw
source customer object instead. -/
theorem c2_counterexample :
    wasManuallyEdited c2Existing = false ∧
    isNewerData c2Customer c2Existing = false ∧
    calculateCompleteness (transformCustomerSync c2Customer false).asContact >
      calculateCompleteness c2Existing.asContact ∧
    decideMergeStrategy c2Customer (some c2Existing) =
      { action := "skip", contact := some c2Existing } ∧
    (syncCustomer c2Customer {} { lookup := some c2Existing }).1.action = "skipped" := by
  refine ⟨by decide, by decide, by decide, by decide, by decide⟩

/-- C2 amended: when the existing contact is not manually edited and the
recency rule does not fire, the update-vs-skip decision compares
`calculateCompleteness` of the RAW source customer object (not of the
transformed payload) with that of the existing contact, and `update` is
chosen iff the raw customer's score is strictly greater. -/
theorem c2_amended (hcCustomer : HCCustomer) (patchContact : PatchContact)
    (hman : wasManuallyEdited patchContact = false)
    (hnew : isNewerData hcCustomer patchContact = false) :
    decideMergeStrategy hcCustomer (some patchContact) =
      (if calculateCompleteness hcCustomer.asContact >
          calculateCompleteness patchContact.asContact then
        { action := "update", contact := some patchContact }
       else { action := "skip", contact := some patchContact }) := by
  simp only [decideMergeStrategy, shouldUpdate, hman, hnew]
  simp

/-- Witness for C2 amended: the counterexample pair falls into the `skip`
branch because the raw customer scores below the existing contact. -/
theorem c2_amended_witness :
    decideMergeStrategy c2Customer (some c2Existing) =
      (if calculateCompleteness c2Customer.asContact >
          calculateCompleteness c2Existing.asContact then
        { action := "update", contact := some c2Existing }
       else { action := "skip", contact := some c2Existing }) :=
  c2_amended c2Customer c2Existing (by decide) (by decide)

/-- The tag list of the async-variant payload when the job-history fetch
succeeds and an id is present: the deduplicated `buildTags` output with the
`ZIP:` and `LastService:` markers appended afterwards. -/
theorem transformCustomer_tags (customer : HCCustomer) (isInitialSync : Bool)
    (lsd : Option String) (hid : jsTruthy customer.id = true) :
    Except.map PatchPayload.tags
        (transformCustomer customer
          { isInitialSync := isInitialSync, includeLastServiceDate := true }
          (Except.ok lsd)) =
      Except.ok
        (buildTags customer lsd isInitialSync ++
          (if jsTruthy (extractZip customer.addresses) then
            ["ZIP:" ++ (extractZip customer.addresses).getD ""] else []) ++
          (if jsTruthy lsd then
            ["LastService:" ++ formatServiceDate (lsd.getD "")] else [])) := by
  by_cases hst : jsTruthy (extractStreet customer.addresses) <;>
    by_cases hz : jsTruthy (extractZip customer.addresses) <;>
      by_cases hls : jsTruthy lsd <;>
        simp [transformCustomer, cleanupPayload, Except.map, hid, hst, hz, hls]

/-- C4 counterexample: a source customer whose own tag list already contains
the synthesized `ZIP:` marker of its service address produces a payload whose
tag array holds `ZIP:84101` twice, because the `ZIP:` marker is pushed after
the `Set`-based deduplication. -/
theorem c4_counterexample :
    "ZIP:84101" ∈ c4Customer.tags.getD [] ∧
    ¬ (transformCustomerSync c4Customer false).tags.Nodup :=
  ⟨by decide, by decide⟩

/-- C4 amended: the `buildTags` output is always duplicate-free, and the full
payload tag list of both transformer variants is duplicate-free PROVIDED the
source's own tags contain no entry of the synthesized `ZIP:` or
`LastService:` marker shapes (those two markers are appended after the
set-deduplication); order is deterministic since the transformation is a pure
function of its input. -/
theorem c4_amended (customer : HCCustomer) (isInitialSync : Bool)
    (lsd : Option String)
    (hzip : ∀ z, ("ZIP:" ++ z) ∉ customer.tags.getD [])
    (hls : ∀ d, ("LastService:" ++ d) ∉ customer.tags.getD []) :
    (buildTags customer lsd isInitialSync).Nodup ∧
    (transformCustomerSync customer isInitialSync).tags.Nodup ∧
    (∀ payload, jsTruthy customer.id = true →
      transformCustomer customer
          { isInitialSync := isInitialSync, includeLastServiceDate := true }
          (Except.ok lsd) = Except.ok payload →
      payload.tags.Nodup) := by
  have hsync : (transformCustomerSync customer isInitialSync).tags.Nodup := by
    rw [transformCustomerSync_tags]
    by_cases hz : jsTruthy (extractZip customer.addresses)
    · rw [if_pos hz]
      refine List.Nodup.append (buildTags_nodup _ _ _) (List.nodup_singleton _) ?_
      intro a ha hb
      rw [List.mem_singleton] at hb
      subst hb
      exact hzip _ (zip_marker_mem_buildTags ha)
    · rw [if_neg hz]
      simpa using buildTags_nodup _ _ _
  refine ⟨buildTags_nodup _ _ _, hsync, ?_⟩
  intro payload hid htr
  have hmap := transformCustomer_tags customer isInitialSync lsd hid
  rw [htr] at hmap
  simp only [Except.map, Except.ok.injEq] at hmap
  rw [hmap]
  refine List.Nodup.append ?_ ?_ ?_
  · by_cases hz : jsTruthy (extractZip customer.addresses)
    · rw [if_pos hz]
      refine List.Nodup.append (buildTags_nodup _ _ _) (List.nodup_singleton _) ?_
      intro a ha hb
      rw [List.mem_singleton] at hb
      subst hb
      exact hzip _ (zip_marker_mem_buildTags ha)
    · rw [if_neg hz]
      simpa using buildTags_nodup _ _ _
  · by_cases hlsb : jsTruthy lsd
    · rw [if_pos hlsb]; exact List.nodup_singleton _
    · rw [if_neg hlsb]; exact List.nodup_nil
  · intro a ha hb
    by_cases hlsb : jsTruthy lsd
    · rw [if_pos hlsb, List.mem_singleton] at hb
      subst hb
      rcases List.mem_append.1 ha with ha' | ha'
      · exact hls _ (ls_marker_mem_buildTags ha')
      · by_cases hz : jsTruthy (extractZip customer.addresses)
        · rw [if_pos hz, List.mem_singleton] at ha'
          exact zip_tag_ne_ls_tag _ _ ha'.symm
        · rw [if_neg hz] at ha'
          exact List.not_mem_nil _ ha'
    · rw [if_neg hlsb] at hb
      exact List.not_mem_nil _ hb

/-- Witness for C4 amended: a customer with no tags of its own gets a
duplicate-free tag list from both transformer variants. -/
theorem c4_amended_witness :
    (buildTags c4Witness (some "2024-05-01T12:00:00Z") false).Nodup ∧
    (transformCustomerSync c4Witness false).tags.Nodup := by
  have h := c4_amended c4Witness false (some "2024-05-01T12:00:00Z")
    (by intro z hmem; simp [c4Witness] at hmem)
    (by intro d hmem; simp [c4Witness] at hmem)
  exact ⟨h.1, h.2.1⟩

/-- C9 counterexample: the sync/async equivalence holds at this input, but
the `Has-Service-History` tag is NOT absent — a source customer whose own
tags contain that literal keeps it in the output of both variants. -/
theorem c9_counterexample :
    transformCustomer c9Customer
        { isInitialSync := false, includeLastServiceDate := false }
        (Except.ok none) = Except.ok (transformCustomerSync c9Customer false) ∧
    "Has-Service-History" ∈ (transformCustomerSync c9Customer false).tags :=
  ⟨rfl, by decide⟩

/-- C9 amended: for every source customer, flag, and job-history outcome,
`transformCustomer` with `includeLastServiceDate: false` never consults the
job-history collaborator and returns exactly the `transformCustomerSync`
payload (same fields, same tags); in this mode the transformer itself never
synthesizes the `Has-Service-History` or `LastService:` tags — they appear in
the output only if already present among the source's own tags. -/
theorem c9_amended (customer : HCCustomer) (isInitialSync : Bool)
    (lastServiceOracle : Except String (Option String)) :
    (transformCustomer customer
        { isInitialSync := isInitialSync, includeLastServiceDate := false }
        lastServiceOracle =
      Except.ok (transformCustomerSync customer isInitialSync)) ∧
    ("Has-Service-History" ∉ customer.tags.getD [] →
      "Has-Service-History" ∉ (transformCustomerSync customer isInitialSync).tags) ∧
    (∀ d, ("LastService:" ++ d) ∉ customer.tags.getD [] →
      ("LastService:" ++ d) ∉ (transformCustomerSync customer isInitialSync).tags) := by
  refine ⟨rfl, ?_, ?_⟩
  · intro hcust hmem
    rw [transformCustomerSync_tags] at hmem
    rcases List.mem_append.1 hmem with h | h
    · rcases mem_buildTags h with h' | h' | h' | ⟨st, h'⟩ | ⟨hfalse, _⟩ | h'
      · exact absurd h' (by decide)
      · exact absurd h' (by decide)
      · exact absurd h' (by decide)
      · exact state_tag_ne_hsh st h'.symm
      · simp [jsTruthy] at hfalse
      · exact hcust h'
    · by_cases hz : jsTruthy (extractZip customer.addresses)
      · rw [if_pos hz, List.mem_singleton] at h
        exact zip_tag_ne_hsh _ h.symm
      · rw [if_neg hz] at h
        exact List.not_mem_nil _ h
  · intro d hcust hmem
    rw [transformCustomerSync_tags] at hmem
    rcases List.mem_append.1 hmem with h | h
    · rcases mem_buildTags h with h' | h' | h' | ⟨st, h'⟩ | ⟨hfalse, _⟩ | h'
      · exact ls_tag_ne_source d h'
      · exact ls_tag_ne_sync_initial d h'
      · exact ls_tag_ne_sync_realtime d h'
      · exact ls_tag_ne_state_tag d st h'
      · simp [jsTruthy] at hfalse
      · exact hcust h'
    · by_cases hz : jsTruthy (extractZip customer.addresses)
      · rw [if_pos hz, List.mem_singleton] at h
        exact zip_tag_ne_ls_tag _ _ h.symm
      · rw [if_neg hz] at h
        exact List.not_mem_nil _ h

/-- Witness for C9 amended: with service history disabled the async
transformer equals the sync one even when the job-history collaborator would
have failed, and the service-history marker is absent for a customer whose
own tags do not carry it. -/
theorem c9_amended_witness :
    (transformCustomer richCustomer
        { isInitialSync := false, includeLastServiceDate := false }
        (Except.error "network timeout") =
      Except.ok (transformCustomerSync richCustomer false)) ∧
    "Has-Service-History" ∉ (transformCustomerSync richCustomer false).tags := by
  have h := c9_amended richCustomer false (Except.error "network timeout")
  exact ⟨h.1, h.2.1 (by decide)⟩

theorem jsOrS_of_falsy {a : Option String} {d : String} (h : jsTruthy a = false) :
    jsOrS a d = d := by
  unfold jsOrS
  cases a with
  | none => rfl
  | some s =>
    simp only [jsTruthy] at h
    simp [h]

/-- The `phone` field of the sync-variant payload:
`customer.mobile_number || customer.home_number || ''`, with the empty string
deleted by the cleanup loop. -/
theorem transformCustomerSync_phone (customer : HCCustomer) (isInitialSync : Bool) :
    (transformCustomerSync customer isInitialSync).phone =
      cleanField (some (jsOrS customer.mobile_number (jsOrS customer.home_number ""))) := by
  by_cases hst : jsTruthy (extractStreet customer.addresses) <;>
    by_cases hz : jsTruthy (extractZip customer.addresses) <;>
      simp [transformCustomerSync, cleanupPayload, hst, hz]

/-- The `phone` field of any payload the async transformer returns. -/
theorem transformCustomer_ok_phone {customer : HCCustomer}
    {options : TransformOptions} {oracle : Except String (Option String)}
    {payload : PatchPayload}
    (h : transformCustomer customer options oracle = Except.ok payload) :
    payload.phone =
      cleanField (some (jsOrS customer.mobile_number (jsOrS customer.home_number ""))) := by
  unfold transformCustomer at h
  split at h
  · exact absurd h (by simp)
  · rename_i lsd heq
    simp only [Except.ok.injEq] at h
    subst h
    by_cases hst : jsTruthy (extractStreet customer.addresses) <;>
      by_cases hz : jsTruthy (extractZip customer.addresses) <;>
        by_cases hls : jsTruthy lsd <;>
          simp [cleanupPayload, hst, hz, hls]

/-- The `phone` field of any payload the orchestrator's transform step
returns. -/
theorem transformStep_ok_phone {customer : HCCustomer} {options : SyncOptions}
    {fx : SyncEffects} {payload : PatchPayload}
    (h : transformStep customer options fx = Except.ok payload) :
    payload.phone =
      cleanField (some (jsOrS customer.mobile_number (jsOrS customer.home_number ""))) := by
  unfold transformStep at h
  split at h
  · exact transformCustomer_ok_phone h
  · simp only [Except.ok.injEq] at h
    subst h
    exact transformCustomerSync_phone customer options.isInitialSync

/-- C6: a source customer with neither a mobile nor a home number whose
transform step succeeds is skipped with reason `no_phone`, and the run
performs no contact lookup, no create and no update call (at most the
job-history fetch inside the transform). -/
theorem c6_no_phone_skip (customer : HCCustomer) (options : SyncOptions)
    (fx : SyncEffects) (payload : PatchPayload)
    (hm : jsTruthy customer.mobile_number = false)
    (hh : jsTruthy customer.home_number = false)
    (ht : transformStep customer options fx = Except.ok payload) :
    (syncCustomer customer options fx).1 =
      { action := "skipped", reason := some "no_phone" } ∧
    ∀ call ∈ (syncCustomer customer options fx).2, call = ApiCall.jobHistory := by
  have hphone : payload.phone = none := by
    rw [transformStep_ok_phone ht, jsOrS_of_falsy hm, jsOrS_of_falsy hh]
    rfl
  unfold syncCustomer
  rw [ht]
  constructor
  · simp [hphone, jsTruthy]
  · simp only [hphone]
    intro call hcall
    simp only [jsTruthy] at hcall
    split at hcall <;> simp_all

/-- Witness for C6: a phoneless customer is skipped with zero downstream
calls. -/
theorem c6_no_phone_skip_witness :
    (syncCustomer phonelessCustomer {} {}).1 =
      { action := "skipped", reason := some "no_phone" } ∧
    ∀ call ∈ (syncCustomer phonelessCustomer {} {}).2, call = ApiCall.jobHistory :=
  c6_no_phone_skip phonelessCustomer {} {}
    (transformCustomerSync phonelessCustomer false) (by decide) (by decide) rfl

/-- Every result the orchestrator produces carries one of the four action
strings (the `Unknown action` default of the switch is also caught and
reported as `error`). -/
theorem syncCustomer_action_mem (customer : HCCustomer) (options : SyncOptions)
    (fx : SyncEffects) :
    (syncCustomer customer options fx).1.action ∈
      (["created", "updated", "skipped", "error"] : List String) := by
  unfold syncCustomer
  rcases htr : transformStep customer options fx with msg | payload <;>
    simp only [htr]
  · simp
  · by_cases hp : jsTruthy payload.phone = true
    · simp only [hp, not_true, if_false, if_neg]
      rcases hl : fx.lookup with _ | existing
      · simp only [hl, decideMergeStrategy]
        rcases hc : fx.createResult with e | created <;> simp [hc]
      · simp only [hl, decideMergeStrategy]
        by_cases hsu : shouldUpdate customer existing = true
        · simp only [hsu, if_true]
          rcases hu : fx.updateResult with e | updated <;> simp [hu]
        · simp only [Bool.not_eq_true] at hsu
          simp [hsu]
    · simp [hp]

theorem batchStep_counts (acc : BatchResult) (result : SyncResult)
    (h : result.action ∈ (["created", "updated", "skipped", "error"] : List String)) :
    (batchStep acc result).created + (batchStep acc result).updated +
      (batchStep acc result).skipped + (batchStep acc result).errors =
      acc.created + acc.updated + acc.skipped + acc.errors + 1 := by
  simp only [List.mem_cons, List.not_mem_nil, or_false] at h
  rcases h with h | h | h | h <;> simp [batchStep, h] <;> omega

theorem syncBatch_foldl_details (customers : List HCCustomer)
    (options : SyncOptions) (fx : HCCustomer → SyncEffects) (acc : BatchResult) :
    (customers.foldl
        (fun a customer => batchStep a (syncCustomer customer options (fx customer)).1)
        acc).details =
      acc.details ++ customers.map (fun c => (syncCustomer c options (fx c)).1) := by
  induction customers generalizing acc with
  | nil => simp
  | cons c cs ih =>
    simp only [List.foldl_cons]
    rw [ih]
    simp [batchStep]

theorem syncBatch_foldl_counts (customers : List HCCustomer)
    (options : SyncOptions) (fx : HCCustomer → SyncEffects) (acc : BatchResult) :
    ((customers.foldl
        (fun a customer => batchStep a (syncCustomer customer options (fx customer)).1)
        acc).created +
      (customers.foldl
        (fun a customer => batchStep a (syncCustomer customer options (fx customer)).1)
        acc).updated +
      (customers.foldl
        (fun a customer => batchStep a (syncCustomer customer options (fx customer)).1)
        acc).skipped +
      (customers.foldl
        (fun a customer => batchStep a (syncCustomer customer options (fx customer)).1)
        acc).errors) =
      acc.created + acc.updated + acc.skipped + acc.errors + customers.length := by
  induction customers generalizing acc with
  | nil => simp
  | cons c cs ih =>
    simp only [List.foldl_cons, List.length_cons]
    rw [ih, batchStep_counts acc _ (syncCustomer_action_mem c options (fx c))]
    omega

/-- C10: batch accounting invariant.  `syncBatch` returns one detail entry
per input customer, in input order (the per-record result of `syncCustomer`);
every detail's action is one of created/updated/skipped/error; and the four
counters sum to the length of the input list. -/
theorem c10_batch_accounting (customers : List HCCustomer) (options : SyncOptions)
    (fx : HCCustomer → SyncEffects) :
    (syncBatch customers options fx).details =
      customers.map (fun c => (syncCustomer c options (fx c)).1) ∧
    (∀ r ∈ (syncBatch customers options fx).details,
      r.action ∈ (["created", "updated", "skipped", "error"] : List String)) ∧
    (syncBatch customers options fx).created + (syncBatch customers options fx).updated +
      (syncBatch customers options fx).skipped + (syncBatch customers options fx).errors =
      customers.length := by
  have hdetails : (syncBatch customers options fx).details =
      customers.map (fun c => (syncCustomer c options (fx c)).1) := by
    simpa [syncBatch] using syncBatch_foldl_details customers options fx {}
  refine ⟨hdetails, ?_, ?_⟩
  · intro r hr
    rw [hdetails] at hr
    obtain ⟨c, _, rfl⟩ := List.mem_map.1 hr
    exact syncCustomer_action_mem c options (fx c)
  · simpa [syncBatch] using syncBatch_foldl_counts customers options fx {}

/-- C5: the orchestrator is the failure boundary for per-record problems.
A failing transform step yields an `error` result carrying the message; a
rejected create or update call yields an `error` result carrying the wrapped
API-client message; the result is always an ordinary return value (the
embedding is a total function into `SyncResult`), and `syncBatch` produces a
detail for every input record, so a batch continues past a failing one. -/
theorem c5_error_boundary (customer : HCCustomer) (options : SyncOptions)
    (fx : SyncEffects) (customers : List HCCustomer)
    (fxB : HCCustomer → SyncEffects) :
    (∀ msg, transformStep customer options fx = Except.error msg →
      (syncCustomer customer options fx).1 =
        { action := "error", error := some msg }) ∧
    (∀ payload e, transformStep customer options fx = Except.ok payload →
      jsTruthy payload.phone = true → fx.lookup = none →
      fx.createResult = Except.error e →
      (syncCustomer customer options fx).1 =
        { action := "error",
          error := some ("Failed to create contact: " ++ e.message) }) ∧
    (∀ payload existing e, transformStep customer options fx = Except.ok payload →
      jsTruthy payload.phone = true → fx.lookup = some existing →
      shouldUpdate customer existing = true →
      fx.updateResult = Except.error e →
      (syncCustomer customer options fx).1 =
        { action := "error",
          error := some ("Failed to update contact: " ++ e.message) }) ∧
    (syncBatch customers options fxB).details.length = customers.length := by
  refine ⟨?_, ?_, ?_, ?_⟩
  · intro msg h
    unfold syncCustomer
    rw [h]
  · intro payload e h hp hl hc
    unfold syncCustomer
    rw [h]
    simp [hp, hl, hc, decideMergeStrategy]
  · intro payload existing e h hp hl hsu hu
    unfold syncCustomer
    rw [h]
    simp [hp, hl, hu, decideMergeStrategy, hsu]
  · have := syncBatch_foldl_details customers options fxB {}
    simp only [syncBatch]
    rw [this]
    simp

/-- Witness for C5: a rejected create call is converted into an `error`
result instead of a raised fault. -/
theorem c5_error_boundary_witness :
    (syncCustomer c3Customer {} c3Effects).1 =
      { action := "error",
        error := some ("Failed to create contact: " ++
          "Request failed with status code 409") } :=
  (c5_error_boundary c3Customer {} c3Effects [] (fun _ => {})).2.1
    (transformCustomerSync c3Customer false)
    { status := some 409, message := "Request failed with status code 409" }
    rfl (by decide) rfl rfl

/-- C3 counterexample: in the library orchestrator (`syncCustomer` of
src/lib/sync.js), a downstream create call rejected with HTTP 409 produces an
`error` result, NOT a `skipped` one — the `Failed to create contact:` wrapper
of src/lib/patchApi.js discards the status, so the conflict is indistinguishable
from any other failure there. -/
theorem c3_counterexample :
    (syncCustomer c3Customer {} c3Effects).1 =
      { action := "error",
        error := some "Failed to create contact: Request failed with status code 409" } := by
  decide

/-- C3 amended: a duplicate/validation rejection (HTTP 409 or 400) of the
downstream write is converted to a non-fatal `skipped`/`duplicate_or_validation`
outcome only by the inline `syncCustomer` of the standalone webhook handler
(src/api/sync.js); the library orchestrator instead reports such a rejection
as a (still non-fatal) `error` result, and batch processing proceeds either
way. -/
theorem c3_amended (customer : HCCustomer) (options : SyncOptions)
    (fx : SyncEffects) (payload : PatchPayload) (e : AxiosError)
    (customer2 : HCCustomer) (e2 : AxiosError)
    (ht : transformStep customer options fx = Except.ok payload)
    (hp : jsTruthy payload.phone = true)
    (hl : fx.lookup = none)
    (hc : fx.createResult = Except.error e)
    (hphone2 : jsOrS customer2.mobile_number (jsOrS customer2.home_number "") ≠ "")
    (hstatus : e2.status = some 409 ∨ e2.status = some 400) :
    (syncCustomer customer options fx).1.action = "error" ∧
    inlineSyncCustomer customer2 (Except.error e2) =
      Except.ok { action := "skipped", reason := some "duplicate_or_validation" } := by
  constructor
  · unfold syncCustomer
    rw [ht]
    simp [hp, hl, hc, decideMergeStrategy]
  · unfold inlineSyncCustomer
    rw [if_neg (by simpa using hphone2)]
    rcases hstatus with h | h <;> simp [h]

/-- Witness for C3 amended: the same 409 rejection yields `error` in the
library path and `skipped`/`duplicate_or_validation` in the inline webhook
path. -/
theorem c3_amended_witness :
    (syncCustomer c3Customer {} c3Effects).1.action = "error" ∧
    inlineSyncCustomer c3Customer
        (Except.error { status := some 400, message := "Bad Request" }) =
      Except.ok { action := "skipped", reason := some "duplicate_or_validation" } :=
  c3_amended c3Customer {} c3Effects (transformCustomerSync c3Customer false)
    { status := some 409, message := "Request failed with status code 409" }
    c3Customer { status := some 400, message := "Bad Request" }
    rfl (by decide) rfl rfl (by decide) (Or.inr rfl)

/-- Witness for C8: the characterization evaluated at the documented
example. -/
theorem c8_normalize_phone_witness :
    normalizePhone (some "+1 (801) 555-0100") = "8015550100" :=
  c8_normalize_phone.2.2.2.1

/-- Witness for C10: a two-record batch (one skipped for having no phone, one
erroring on its create call) yields two details and counters summing to 2. -/
theorem c10_batch_accounting_witness :
    (syncBatch [phonelessCustomer, c3Customer] {} (fun _ => c3Effects)).created +
      (syncBatch [phonelessCustomer, c3Customer] {} (fun _ => c3Effects)).updated +
      (syncBatch [phonelessCustomer, c3Customer] {} (fun _ => c3Effects)).skipped +
      (syncBatch [phonelessCustomer, c3Customer] {} (fun _ => c3Effects)).errors = 2 :=
  (c10_batch_accounting [phonelessCustomer, c3Customer] {} (fun _ => c3Effects)).2.2

end HPSync
